import Mathlib

/-!
Shallow embedding of the file-syscall layer of tyther9/COP4610
(src/kern/syscall/file_syscalls.c) together with the collaborators the
spec describes (descriptor table, open-file objects, VFS transfer).

Bytes are modelled as `Nat`, file contents as `List Nat`, and the
per-process state as an explicit record threaded through each handler.
Fallible steps return `Except Err`.  Handlers additionally emit a trace
of resource events (buffer allocation/free, lock acquire/release, VFS
transfer) so that claims about lock discipline and buffer release are
statable.
-/

namespace FileSys

/-- Error values of kern/errno.h that this layer produces or propagates.
`other` stands for any further collaborator-reported code. -/
inductive Err where
  | EINVAL
  | EBADF
  | EFAULT
  | ENOENT
  | EEXIST
  | EMFILE
  | other (n : Nat)
deriving DecidableEq, Repr

/-- Flag bits of kern/fcntl.h used by sys_open's validation. -/
def O_RDONLY : Nat := 0
def O_WRONLY : Nat := 1
def O_RDWR : Nat := 2
def O_ACCMODE : Nat := 3
def O_CREAT : Nat := 4
def O_EXCL : Nat := 8
def O_TRUNC : Nat := 16
def O_APPEND : Nat := 32
def O_NOCTTY : Nat := 64

/-- line 30: allflags = O_ACCMODE | O_CREAT | O_EXCL | O_TRUNC | O_APPEND | O_NOCTTY. -/
def allflags : Nat :=
  O_ACCMODE ||| O_CREAT ||| O_EXCL ||| O_TRUNC ||| O_APPEND ||| O_NOCTTY

/-- Bytes of a string literal, for writing file contents readably. -/
def strBytes (s : String) : List Nat := s.data.map Char.toNat

/-! ## The meld chunk loop (sys_meld, lines 228-300)

The loop state after the three opens succeeded: the two source offsets,
the destination content (the destination is created fresh with
O_CREAT|O_EXCL, so its offset is always its length), and the two
4-byte kernel chunk buffers, whose contents persist across iterations
(kmalloc leaves them uninitialized, so their initial contents are
parameters of the model). -/

structure MeldSt where
  off1 : Nat
  off2 : Nat
  dest : List Nat
  kbuf1 : List Nat
  kbuf2 : List Nat
deriving DecidableEq, Repr

/-- One VOP_READ of up to 4 bytes at `off` into a 4-byte kernel buffer
(lines 240-244 / 251-255): the bytes transferred land in the buffer's
prefix, the rest of the buffer keeps its previous contents; returns the
new buffer, the byte count (uio_offset - last offset) and the new offset. -/
def chunkRead (content : List Nat) (off : Nat) (kbuf : List Nat) :
    List Nat × Nat × Nat :=
  let data := (content.drop off).take 4
  (data ++ kbuf.drop data.length, data.length, off + data.length)

/-- The space-padding condition of lines 259 and 270, for one buffer:
`(selfRead > 0 && selfRead < 4) || (otherRead > 0 && selfRead == 0)`. -/
def padCond (selfRead otherRead : Nat) : Bool :=
  (decide (0 < selfRead) && decide (selfRead < 4)) ||
  (decide (0 < otherRead) && decide (selfRead = 0))

/-- The padding loop of lines 262-267 / 273-278:
`for (loopcnt = start - 1; loopcnt < 4; loopcnt++) ptr[loopcnt] = ' ';`
with `start = fileRead`, or 1 when `fileRead == 0`.  Note it begins at
index `start - 1`, so for a nonzero short read of n bytes it overwrites
indices n-1..3 — including index n-1, the last byte actually read. -/
def padBuf (kbuf : List Nat) (start : Nat) : List Nat :=
  kbuf.take (start - 1) ++ List.replicate (4 - (start - 1)) 32

/-- One iteration of the while body (lines 236-296): chunk-read both
sources, apply the padding rules to each buffer, and append both
buffers to the destination unless both reads were zero-length
(line 281's guard).  Returns the new state and this iteration's two
read counts (file1Read, file2Read). -/
def meldIter (c1 c2 : List Nat) (st : MeldSt) : MeldSt × Nat × Nat :=
  let (k1, r1, o1) := chunkRead c1 st.off1 st.kbuf1
  let (k2, r2, o2) := chunkRead c2 st.off2 st.kbuf2
  let k1 := if padCond r1 r2 then padBuf k1 (if r1 = 0 then 1 else r1) else k1
  let k2 := if padCond r2 r1 then padBuf k2 (if r2 = 0 then 1 else r2) else k2
  let d := if r1 ≠ 0 ∨ r2 ≠ 0 then st.dest ++ k1 ++ k2 else st.dest
  (⟨o1, o2, d, k1, k2⟩, r1, r2)

/-- The while loop of line 235: `while (file1Read != 0 && file2Read != 0)`.
`fuel` bounds the iteration count (the C loop terminates because every
continuing iteration advances both source offsets); `r1` and `r2` are
the previous iteration's read counts, initially -1 each in the C code,
modelled by any nonzero pair. -/
def meldLoop (c1 c2 : List Nat) : Nat → MeldSt → Nat × Nat → MeldSt
  | 0, st, _ => st
  | fuel + 1, st, (r1, r2) =>
    if r1 ≠ 0 ∧ r2 ≠ 0 then
      let (st', r1', r2') := meldIter c1 c2 st
      meldLoop c1 c2 fuel st' (r1', r2')
    else st

/-- The meld core after the three opens succeed (lines 228-300): run the
chunk loop from offsets 0 on an empty destination, with the two kernel
buffers starting at the uninitialized contents `j1`/`j2`; the reported
result (line 300) is the destination's final offset, i.e. its length. -/
def meldRun (c1 c2 j1 j2 : List Nat) : Nat × List Nat :=
  let st := meldLoop c1 c2 (c1.length + c2.length + 2) ⟨0, 0, [], j1, j2⟩ (1, 1)
  (st.dest.length, st.dest)

/-! ## Open-file objects, the descriptor table, and the VFS collaborator -/

/-- An open-file object (struct openfile): access mode (of_accmode),
current offset (of_offset), reference count (of_refcount), and the
underlying vnode, modelled by the file's byte content plus an optional
injected VFS-transfer failure (the collaborator may fail; `vfsErr`
makes that fault statable and executable). -/
structure OpenFile where
  accmode : Nat
  offset : Nat
  refcount : Nat
  content : List Nat
  vfsErr : Option Err
deriving DecidableEq, Repr

/-- The per-process state: the open-file object store (index = object
id; `none` = destroyed) and the descriptor table mapping fd to object
id (`none` = empty slot).  The table's length is its fixed capacity. -/
structure Sys where
  files : List (Option OpenFile)
  table : List (Option Nat)
deriving DecidableEq, Repr

/-- Replace the object stored at id `oid`. -/
def setFile (s : Sys) (oid : Nat) (f : OpenFile) : Sys :=
  { s with files := s.files.set oid (some f) }

/-- Modelled from the spec: `filetable_get` (filetable.c is not part of
this repository) — resolve a descriptor to its object; fails for an
out-of-range index or an empty slot, surfaced as BadDescriptor. -/
def filetable_get (s : Sys) (fd : Nat) : Except Err (Nat × OpenFile) :=
  match s.table.get? fd with
  | none => .error .EBADF
  | some none => .error .EBADF
  | some (some oid) =>
    match s.files.get? oid with
    | some (some f) => .ok (oid, f)
    | _ => .error .EBADF

/-- Modelled from the spec: `filetable_placeat` — atomically replace the
slot's contents (sys_close uses it with NULL to clear a slot). -/
def filetable_placeat (s : Sys) (entry : Option Nat) (fd : Nat) : Sys :=
  { s with table := s.table.set fd entry }

/-- Modelled from the spec: `filetable_place` — store a reference in the
lowest free slot and return its index; ResourceExhausted (EMFILE) when
no slot is free. -/
def filetable_place (s : Sys) (oid : Nat) : Except Err (Sys × Nat) :=
  match s.table.findIdx? (· = none) with
  | none => .error .EMFILE
  | some fd => .ok ({ s with table := s.table.set fd (some oid) }, fd)

/-- Modelled from the spec: `openfile_decref` — decrement the reference
count under the object's lock; when it reaches zero, release the
underlying handle and destroy the object. -/
def openfile_decref (s : Sys) (oid : Nat) : Sys :=
  match s.files.get? oid with
  | some (some f) =>
    if f.refcount ≤ 1 then { s with files := s.files.set oid none }
    else setFile s oid { f with refcount := f.refcount - 1 }
  | _ => s

/-- Modelled from the spec: `openfile_open` / vfsOpen — resolve the
path against the store `fs` (path ↦ content), honouring O_CREAT,
O_EXCL and O_TRUNC; on success allocate a fresh object with refcount 1,
offset 0 and the access-mode bits of `flags`. -/
def openfile_open (s : Sys) (fs : List (List Nat × List Nat))
    (path : List Nat) (flags : Nat) : Except Err (Sys × Nat) :=
  let existing := (fs.find? (fun p => p.1 = path)).map Prod.snd
  match existing with
  | some c =>
    if flags &&& O_CREAT ≠ 0 ∧ flags &&& O_EXCL ≠ 0 then .error .EEXIST
    else
      let c := if flags &&& O_TRUNC ≠ 0 then [] else c
      .ok ({ s with files := s.files ++ [some ⟨flags &&& O_ACCMODE, 0, 1, c, none⟩] },
           s.files.length)
  | none =>
    if flags &&& O_CREAT = 0 then .error .ENOENT
    else
      .ok ({ s with files := s.files ++ [some ⟨flags &&& O_ACCMODE, 0, 1, [], none⟩] },
           s.files.length)

/-- Modelled from the spec: one VFS read transfer (VOP_READ through a
uio of length `len` at `off`) — moves `min len (content.length - off)`
bytes and returns the end offset (equal to `off` at end-of-file). -/
def vfsRead (content : List Nat) (off len : Nat) : Nat :=
  off + ((content.drop off).take len).length

/-- Modelled from the spec: one VFS write transfer (VOP_WRITE) at `off`
of buffer `data` — overwrites content from `off` on and returns the end
offset `off + data.length`. -/
def vfsWrite (content : List Nat) (off : Nat) (data : List Nat) :
    List Nat × Nat :=
  (content.take off ++ data ++ content.drop (off + data.length),
   off + data.length)

/-- Resource events a handler emits, in order: kernel-buffer allocation
and free (kmalloc/kfree), offset-lock acquisition and release, and a
VFS transfer attempt on an object. -/
inductive Event where
  | alloc
  | free
  | lockAcquire (oid : Nat)
  | lockRelease (oid : Nat)
  | vfsTransfer (oid : Nat)
deriving DecidableEq, Repr

/-- Number of lock acquisitions of object `oid` in a trace. -/
def lockAcquires (tr : List Event) (oid : Nat) : Nat :=
  tr.count (.lockAcquire oid)

/-- Number of lock releases of object `oid` in a trace. -/
def lockReleases (tr : List Event) (oid : Nat) : Nat :=
  tr.count (.lockRelease oid)

/-- Number of kernel-buffer allocations in a trace. -/
def allocCount (tr : List Event) : Nat := tr.count .alloc

/-- Number of kernel-buffer frees in a trace. -/
def freeCount (tr : List Event) : Nat := tr.count .free

/-- The event trace of a read or write handler that reaches the VFS
transfer on object `oid`: kmalloc the kernel buffer, take the offset
lock, attempt the transfer, kfree the buffer and drop the lock — the
same shape on the success path and on the transfer-failure path
(lines 73-104 and 127-158). -/
def rwTrace (oid : Nat) : List Event :=
  [.alloc, .lockAcquire oid, .vfsTransfer oid, .free, .lockRelease oid]

/-! ## The syscall handlers -/

/-- A user-space string argument: `none` is a NULL pointer; otherwise
copying it to the kernel (copyinstr) either faults with an error or
yields the kernel copy of the bytes. -/
def UserStr : Type := Option (Except Err (List Nat))

/-- sys_open (lines 27-52): validate flags (line 37) and the path
pointer (line 39), allocate the kernel path buffer (line 41), copy the
path in (line 43, returning the fault without freeing the buffer),
open the file and free the buffer (lines 47-49), and place the new
object in the descriptor table (line 51).  `flags` is the C int
argument, so it is modelled as an integer. -/
def sys_open (s : Sys) (fs : List (List Nat × List Nat))
    (upath : UserStr) (flags : Int) :
    Except Err Nat × Sys × List Event :=
  if flags < 0 ∨ flags > (allflags : Int) then (.error .EINVAL, s, [])
  else match upath with
  | none => (.error .EINVAL, s, [])
  | some (.error e) => (.error e, s, [.alloc])
  | some (.ok path) =>
    match openfile_open s fs path flags.toNat with
    | .error e => (.error e, s, [.alloc, .free])
    | .ok (s1, oid) =>
      match filetable_place s1 oid with
      | .error e => (.error e, s1, [.alloc, .free])
      | .ok (s2, fd) => (.ok fd, s2, [.alloc, .free])

/-- sys_read (lines 57-109): resolve the descriptor (line 66), reject a
write-only object with EBADF (line 70), allocate the kernel buffer
(line 73), acquire the offset lock (line 76), attempt the VFS read at
the current offset (line 89); on failure free the buffer, release the
lock and return the error with the offset untouched (lines 91-96); on
success report end minus start offset (line 99) and advance the
object's offset to the end position (line 101). -/
def sys_read (s : Sys) (fd : Nat) (size : Nat) :
    Except Err Nat × Sys × List Event :=
  match filetable_get s fd with
  | .error e => (.error e, s, [])
  | .ok (oid, f) =>
    if f.accmode = O_WRONLY then (.error .EBADF, s, [])
    else
      match f.vfsErr with
      | some e => (.error e, s, rwTrace oid)
      | none =>
        let newOff := vfsRead f.content f.offset size
        (.ok (newOff - f.offset), setFile s oid { f with offset := newOff },
         rwTrace oid)

/-- sys_write (lines 114-163): identical to sys_read except that there
is no access-mode rejection and the transfer direction is reversed; the
user buffer's bytes are `data` (the C size argument is its length). -/
def sys_write (s : Sys) (fd : Nat) (data : List Nat) :
    Except Err Nat × Sys × List Event :=
  match filetable_get s fd with
  | .error e => (.error e, s, [])
  | .ok (oid, f) =>
    match f.vfsErr with
    | some e => (.error e, s, rwTrace oid)
    | none =>
      let (newContent, newOff) := vfsWrite f.content f.offset data
      (.ok (newOff - f.offset),
       setFile s oid { f with offset := newOff, content := newContent },
       rwTrace oid)

/-- sys_close (lines 167-185): resolve the descriptor (line 173,
propagating its failure), clear the table slot when this is the sole
reference (lines 176-179), then drop one reference (line 181); returns
0 on success. -/
def sys_close (s : Sys) (fd : Nat) : Except Err Nat × Sys :=
  match filetable_get s fd with
  | .error e => (.error e, s)
  | .ok (oid, f) =>
    let s1 := if f.refcount = 1 then filetable_placeat s none fd else s
    (.ok 0, openfile_decref s1 oid)

/-- A flags value is legal when it is non-negative and uses only the
access-mode, create, exclusive, truncate, append and
no-controlling-tty bits — the combination sys_open's line 30 builds. -/
def flagsLegal (flags : Int) : Prop :=
  0 ≤ flags ∧ flags.toNat &&& allflags = flags.toNat

/-! ## Concrete sample states used to instantiate the theorems -/

/-- A read-only open file on a 5-byte file, sole reference. -/
def sampleFile : OpenFile := ⟨O_RDONLY, 0, 1, strBytes "hello", none⟩

/-- A state whose descriptor 0 resolves to `sampleFile`. -/
def sampleSys : Sys := ⟨[some sampleFile], [some 0]⟩

/-- A read-only open file whose VFS transfers fail with code 5. -/
def faultyFile : OpenFile := ⟨O_RDONLY, 0, 1, strBytes "hello", some (.other 5)⟩

/-- A state whose descriptor 0 resolves to `faultyFile`. -/
def faultySys : Sys := ⟨[some faultyFile], [some 0]⟩

/-- A write-only open file whose VFS transfers fail with code 5. -/
def faultyWFile : OpenFile := ⟨O_WRONLY, 0, 1, strBytes "hello", some (.other 5)⟩

/-- A state whose descriptor 0 resolves to `faultyWFile`. -/
def faultyWSys : Sys := ⟨[some faultyWFile], [some 0]⟩

/-- A write-only open file, sole reference. -/
def wronlyFile : OpenFile := ⟨O_WRONLY, 0, 1, strBytes "hello", none⟩

/-- A state whose descriptor 0 resolves to `wronlyFile`. -/
def wronlySys : Sys := ⟨[some wronlyFile], [some 0]⟩

/-- A read-only open file with reference count 2. -/
def sharedFile : OpenFile := ⟨O_RDONLY, 0, 2, strBytes "hello", none⟩

/-- A state whose descriptor 0 resolves to `sharedFile`. -/
def sharedSys : Sys := ⟨[some sharedFile], [some 0]⟩

/-! ## Helper lemmas -/

/-- A list of length four is literally a four-element list. -/
theorem length_eq_four {α : Type} {l : List α} (h : l.length = 4) :
    ∃ a b c d, l = [a, b, c, d] := by
  cases l with
  | nil => simp at h
  | cons a l =>
    cases l with
    | nil => simp at h
    | cons b l =>
      cases l with
      | nil => simp at h
      | cons c l =>
        cases l with
        | nil => simp at h
        | cons d l =>
          cases l with
          | nil => exact ⟨a, b, c, d, rfl⟩
          | cons e l => simp at h

/-- Inversion of a successful descriptor resolution. -/
theorem filetable_get_ok {s : Sys} {fd oid : Nat} {f : OpenFile}
    (h : filetable_get s fd = .ok (oid, f)) :
    s.table.get? fd = some (some oid) ∧ s.files.get? oid = some (some f) := by
  unfold filetable_get at h
  split at h
  · cases h
  · cases h
  · rename_i oid' htab
    split at h
    · rename_i f' hfile
      cases h
      exact ⟨htab, hfile⟩
    · cases h

/-- The descriptor-table resolution only ever fails with EBADF. -/
theorem filetable_get_error {s : Sys} {fd : Nat} {e : Err}
    (h : filetable_get s fd = .error e) : e = .EBADF := by
  unfold filetable_get at h
  split at h
  · cases h; rfl
  · cases h; rfl
  · split at h
    · cases h
    · cases h; rfl

/-- Resolving the same descriptor after the resolved object is replaced
in the store yields the replacement. -/
theorem filetable_get_setFile {s : Sys} {fd oid : Nat} {f : OpenFile}
    (h : filetable_get s fd = .ok (oid, f)) (g : OpenFile) :
    filetable_get (setFile s oid g) fd = .ok (oid, g) := by
  obtain ⟨htab, hfile⟩ := filetable_get_ok h
  have hlen : oid < s.files.length := by
    by_contra hge
    rw [List.get?_eq_none.2 (Nat.le_of_not_lt hge)] at hfile
    cases hfile
  unfold filetable_get setFile
  simp only [htab, List.get?_set_eq_of_lt (some g) hlen]

/-! ## The claims -/

/-- Claim C3: melding the 8-byte sources "01238901" and "45672345"
produces the 16-byte destination "0123456789012345" (chunks alternate
source 1 then source 2 each iteration) and reports 16 bytes written,
whatever the uninitialized contents of the two 4-byte kernel buffers. -/
theorem meld_test_vector (j1 j2 : List Nat)
    (h1 : j1.length = 4) (h2 : j2.length = 4) :
    meldRun (strBytes "01238901") (strBytes "45672345") j1 j2
      = (16, strBytes "0123456789012345") := by
  obtain ⟨a, b, c, d, rfl⟩ := length_eq_four h1
  obtain ⟨a2, b2, c2, d2, rfl⟩ := length_eq_four h2
  rfl

/-- Witness for `meld_test_vector` at the zeroed kernel buffers. -/
theorem meld_test_vector_witness :
    ([0, 0, 0, 0] : List Nat).length = 4 ∧
    meldRun (strBytes "01238901") (strBytes "45672345") [0, 0, 0, 0] [0, 0, 0, 0]
      = (16, strBytes "0123456789012345") :=
  ⟨rfl, meld_test_vector [0, 0, 0, 0] [0, 0, 0, 0] rfl rfl⟩

/-- Claim C1 fails on the code: with the 4-byte source 1 "aaaa" and the
12-byte source 2 "012345678901", the `&&` in line 235's loop condition
ends the loop in the very iteration where source 1 first reports a
zero-length read even though source 2 just read a full chunk, so
source 2's final bytes "8901" are never written; the destination is the
16 bytes "aaaa0123    4567" rather than the 24 bytes the claim's
"until both are exhausted" behavior would produce. -/
theorem meld_stops_when_one_source_ends :
    meldRun (strBytes "aaaa") (strBytes "012345678901") [0, 0, 0, 0] [0, 0, 0, 0]
      = (16, strBytes "aaaa0123    4567") ∧
    ¬ (strBytes "8901").Sublist (strBytes "aaaa0123    4567") :=
  ⟨rfl, by decide⟩

/-- Claim C2 fails on the code: melding the 2-byte sources "ab" and
"cd", each chunk read returns n = 2 bytes, but the padding loop of
lines 264 and 275 starts at index n - 1 and so overwrites the last
byte read ('b', 'd') with a space: the chunks written are "a   " and
"c   " instead of the claimed "ab  " and "cd  ". -/
theorem meld_pad_overwrites_last_read_byte :
    meldRun (strBytes "ab") (strBytes "cd") [0, 0, 0, 0] [0, 0, 0, 0]
      = (8, strBytes "a   c   ") ∧
    strBytes "a   c   " ≠ strBytes "ab  cd  " :=
  ⟨rfl, by decide⟩

/-- Claim C4: every read or write that succeeds returns exactly the
object's post-transfer offset minus its pre-transfer offset, that value
is at most the requested size, and the object's offset is advanced to
the transfer's end position (pre-transfer offset plus the result). -/
theorem read_write_report_offset_delta (s : Sys) (fd : Nat) :
    (∀ size r s' tr, sys_read s fd size = (.ok r, s', tr) →
       ∃ oid f, filetable_get s fd = .ok (oid, f) ∧
         filetable_get s' fd = .ok (oid, { f with offset := f.offset + r }) ∧
         r ≤ size) ∧
    (∀ data r s' tr, sys_write s fd data = (.ok r, s', tr) →
       ∃ oid f f', filetable_get s fd = .ok (oid, f) ∧
         filetable_get s' fd = .ok (oid, f') ∧ f'.offset = f.offset + r ∧
         r ≤ data.length) := by
  constructor
  · intro size r s' tr h
    unfold sys_read at h
    split at h
    · cases h
    · rename_i oid f hget
      refine ⟨oid, f, hget, ?_⟩
      split at h
      · cases h
      · split at h
        · cases h
        · rename_i hvfs
          simp only [Prod.mk.injEq, Except.ok.injEq] at h
          obtain ⟨hr, hs', _⟩ := h
          subst hs'
          have hle : r ≤ size := by
            subst hr
            simp [vfsRead, Nat.add_sub_cancel_left]
          refine ⟨?_, hle⟩
          have hoff : f.offset + r = vfsRead f.content f.offset size := by
            subst hr
            simp [vfsRead, Nat.add_sub_cancel_left]
          rw [hoff]
          exact filetable_get_setFile hget _
  · intro data r s' tr h
    unfold sys_write at h
    split at h
    · cases h
    · rename_i oid f hget
      split at h
      · cases h
      · rename_i hvfs
        simp only [vfsWrite, Prod.mk.injEq, Except.ok.injEq] at h
        obtain ⟨hr, hs', _⟩ := h
        subst hs'
        refine ⟨oid, f, _, hget, filetable_get_setFile hget _, ?_, ?_⟩
        · simp [← hr, Nat.add_sub_cancel_left]
        · simp [← hr, Nat.add_sub_cancel_left]

/-- Witness for `read_write_report_offset_delta`: reading 3 bytes of
the 5-byte `sampleFile` through descriptor 0 advances its offset from 0
to 3 and reports 3. -/
theorem read_write_report_offset_delta_witness :
    ∃ oid f, filetable_get sampleSys 0 = .ok (oid, f) ∧
      filetable_get (sys_read sampleSys 0 3).2.1 0
        = .ok (oid, { f with offset := f.offset + 3 }) ∧
      3 ≤ 3 :=
  (read_write_report_offset_delta sampleSys 0).1 3 3
    (sys_read sampleSys 0 3).2.1 (sys_read sampleSys 0 3).2.2 rfl

/-- Claim C5: when the VFS transfer step of a read or write fails, the
handler returns that error, leaves the whole state (in particular the
object's offset) unchanged, and its trace frees the kernel buffer and
releases the offset lock it acquired.  Every failing write is covered;
a read reaches its transfer only when the object is not write-only
(line 70 rejects it earlier otherwise), so the read conclusion is
conditioned on exactly that. -/
theorem read_write_error_releases (s : Sys) (fd oid : Nat) (f : OpenFile)
    (e : Err) (hget : filetable_get s fd = .ok (oid, f))
    (herr : f.vfsErr = some e) (size : Nat) (data : List Nat) :
    (f.accmode ≠ O_WRONLY →
       sys_read s fd size = (.error e, s, rwTrace oid)) ∧
    sys_write s fd data = (.error e, s, rwTrace oid) ∧
    lockAcquires (rwTrace oid) oid = lockReleases (rwTrace oid) oid ∧
    allocCount (rwTrace oid) = freeCount (rwTrace oid) := by
  refine ⟨?_, ?_, ?_, ?_⟩
  · intro hacc
    unfold sys_read
    rw [hget]
    simp only [if_neg hacc, herr]
  · unfold sys_write
    rw [hget]
    simp only [herr]
  · simp [lockAcquires, lockReleases, rwTrace, List.count_cons]
  · simp [allocCount, freeCount, rwTrace, List.count_cons]

/-- Witness for `read_write_error_releases`: a failing read on the
readable `faultySys` and a failing write on the write-only `faultyWSys`
(both VFS transfers fail with collaborator code 5). -/
theorem read_write_error_releases_witness :
    sys_read faultySys 0 3 = (.error (.other 5), faultySys, rwTrace 0) ∧
    sys_write faultyWSys 0 [1] = (.error (.other 5), faultyWSys, rwTrace 0) ∧
    lockAcquires (rwTrace 0) 0 = lockReleases (rwTrace 0) 0 ∧
    allocCount (rwTrace 0) = freeCount (rwTrace 0) :=
  ⟨(read_write_error_releases faultySys 0 0 faultyFile (.other 5) rfl rfl
      3 [1]).1 (by decide),
   (read_write_error_releases faultyWSys 0 0 faultyWFile (.other 5) rfl rfl
      3 [1]).2.1,
   (read_write_error_releases faultySys 0 0 faultyFile (.other 5) rfl rfl
      3 [1]).2.2.1,
   (read_write_error_releases faultySys 0 0 faultyFile (.other 5) rfl rfl
      3 [1]).2.2.2⟩

/-- Claim C6 fails on the code: when copying the path from user space
faults, sys_open returns the fault after having kmalloc'd the PATH_MAX
kernel path buffer and without freeing it — the handler's trace holds
an allocation and no free (sys_meld's three path buffers leak the same
way on its early error returns). -/
theorem open_copyin_failure_leaks_path_buffer :
    sys_open ⟨[], []⟩ [] (some (.error .EFAULT)) 1 =
      (.error .EFAULT, (⟨[], []⟩ : Sys), [.alloc]) ∧
    allocCount [Event.alloc] = 1 ∧ freeCount [Event.alloc] = 0 :=
  ⟨rfl, rfl, rfl⟩

/-- Claim C7: close fails, and fails with EBADF, exactly when the
descriptor does not resolve — every failure is EBADF on a
non-resolving descriptor, and conversely a non-resolving descriptor
makes close fail with EBADF leaving the state unchanged; when close
succeeds on the sole (refcount 1) reference it clears the table slot
and destroys the object, so any subsequent read, write or close on
that descriptor fails with EBADF. -/
theorem close_sole_reference (s : Sys) (fd : Nat) :
    (∀ e s', sys_close s fd = (.error e, s') →
       e = .EBADF ∧ s' = s ∧ filetable_get s fd = .error .EBADF) ∧
    (∀ e, filetable_get s fd = .error e →
       sys_close s fd = (.error .EBADF, s)) ∧
    (∀ oid f, filetable_get s fd = .ok (oid, f) → (sys_close s fd).1 = .ok 0) ∧
    (∀ oid f, filetable_get s fd = .ok (oid, f) → f.refcount = 1 →
       (sys_close s fd).2.table.get? fd = some none ∧
       (sys_close s fd).2.files.get? oid = some none ∧
       filetable_get (sys_close s fd).2 fd = .error .EBADF ∧
       (∀ size, (sys_read (sys_close s fd).2 fd size).1 = .error .EBADF) ∧
       (∀ data, (sys_write (sys_close s fd).2 fd data).1 = .error .EBADF) ∧
       (sys_close (sys_close s fd).2 fd).1 = .error .EBADF) := by
  refine ⟨?_, ?_, ?_, ?_⟩
  · intro e s' h
    unfold sys_close at h
    split at h
    · rename_i e' hgete
      cases h
      exact ⟨filetable_get_error hgete, rfl, (filetable_get_error hgete) ▸ hgete⟩
    · cases h
  · intro e hgete
    have hbad := filetable_get_error hgete
    subst hbad
    unfold sys_close
    rw [hgete]
  · intro oid f hget
    unfold sys_close
    rw [hget]
  · intro oid f hget hrc
    obtain ⟨htab, hfile⟩ := filetable_get_ok hget
    have htlen : fd < s.table.length := by
      by_contra hge
      rw [List.get?_eq_none.2 (Nat.le_of_not_lt hge)] at htab
      cases htab
    have hflen : oid < s.files.length := by
      by_contra hge
      rw [List.get?_eq_none.2 (Nat.le_of_not_lt hge)] at hfile
      cases hfile
    have hfileE : s.files[oid]? = some (some f) := by
      simpa [List.get?_eq_getElem?] using hfile
    have hclose : (sys_close s fd).2 =
        ⟨s.files.set oid none, s.table.set fd none⟩ := by
      unfold sys_close
      rw [hget]
      simp [hrc, filetable_placeat, openfile_decref, hfileE, setFile]
    rw [hclose]
    have hgone : filetable_get
        (⟨s.files.set oid none, s.table.set fd none⟩ : Sys) fd
        = .error .EBADF := by
      unfold filetable_get
      simp only [List.get?_set_eq_of_lt (none : Option Nat) htlen]
    refine ⟨?_, ?_, hgone, ?_, ?_, ?_⟩
    · exact List.get?_set_eq_of_lt (none : Option Nat) htlen
    · exact List.get?_set_eq_of_lt (none : Option OpenFile) hflen
    · intro size
      unfold sys_read
      rw [hgone]
    · intro data
      unfold sys_write
      rw [hgone]
    · unfold sys_close
      rw [hgone]

/-- Witness for `close_sole_reference`: closing descriptor 0 of
`sampleSys` (refcount 1) succeeds, a subsequent resolution and read of
descriptor 0 fail with EBADF, and closing the never-open descriptor 1
fails with EBADF leaving the state unchanged. -/
theorem close_sole_reference_witness :
    (sys_close sampleSys 0).1 = .ok 0 ∧
    filetable_get (sys_close sampleSys 0).2 0 = .error .EBADF ∧
    (sys_read (sys_close sampleSys 0).2 0 4).1 = .error .EBADF ∧
    sys_close sampleSys 1 = (.error .EBADF, sampleSys) :=
  ⟨(close_sole_reference sampleSys 0).2.2.1 0 sampleFile rfl,
   ((close_sole_reference sampleSys 0).2.2.2 0 sampleFile rfl rfl).2.2.1,
   ((close_sole_reference sampleSys 0).2.2.2 0 sampleFile rfl rfl).2.2.2.1 4,
   (close_sole_reference sampleSys 1).2.1 .EBADF rfl⟩

/-- Claim C8: sys_open fails with EINVAL, leaving the state untouched
(no descriptor and no open-file object created) and acquiring nothing,
for every flags value outside the legal combination of the access-mode,
create, exclusive, truncate, append and no-controlling-tty bits, and
for a NULL path. -/
theorem open_rejects_bad_flags_and_null_path (s : Sys)
    (fs : List (List Nat × List Nat)) (upath : UserStr) (flags : Int) :
    (¬ flagsLegal flags → sys_open s fs upath flags = (.error .EINVAL, s, [])) ∧
    sys_open s fs none flags = (.error .EINVAL, s, []) := by
  have h127 : allflags = 127 := by decide
  have hmask : flags.toNat &&& allflags = flags.toNat % 128 := by
    rw [h127]
    have h := Nat.and_pow_two_sub_one_eq_mod flags.toNat 7
    norm_num at h
    exact h
  constructor
  · intro hno
    have hcond : flags < 0 ∨ flags > (allflags : Int) := by
      by_contra hc
      push_neg at hc
      obtain ⟨h0, h1⟩ := hc
      rw [h127] at h1
      apply hno
      refine ⟨h0, ?_⟩
      rw [hmask]
      have : flags.toNat < 128 := by omega
      exact Nat.mod_eq_of_lt this
    unfold sys_open
    rw [if_pos hcond]
  · unfold sys_open
    by_cases hcond : flags < 0 ∨ flags > (allflags : Int)
    · rw [if_pos hcond]
    · rw [if_neg hcond]

/-- Witness for `open_rejects_bad_flags_and_null_path` at the illegal
flags value 128 and at a NULL path with legal flags 1. -/
theorem open_rejects_bad_flags_and_null_path_witness :
    sys_open sampleSys [] (some (.ok [])) 128 = (.error .EINVAL, sampleSys, []) ∧
    sys_open sampleSys [] none 1 = (.error .EINVAL, sampleSys, []) :=
  ⟨(open_rejects_bad_flags_and_null_path sampleSys [] (some (.ok [])) 128).1
     (fun h => absurd h.2 (by decide)),
   (open_rejects_bad_flags_and_null_path sampleSys [] none 1).2⟩

/-- Claim C9: reading through a descriptor whose object is write-only
fails with EBADF, with an empty trace (so before any buffer
allocation, lock acquisition or transfer attempt) and with the state —
in particular the object's offset — unchanged. -/
theorem read_rejects_wronly (s : Sys) (fd size oid : Nat) (f : OpenFile)
    (hget : filetable_get s fd = .ok (oid, f)) (hacc : f.accmode = O_WRONLY) :
    sys_read s fd size = (.error .EBADF, s, []) ∧
    lockAcquires ([] : List Event) oid = 0 ∧
    ([] : List Event).count (.vfsTransfer oid) = 0 := by
  refine ⟨?_, rfl, rfl⟩
  unfold sys_read
  rw [hget]
  simp only [if_pos hacc]

/-- Witness for `read_rejects_wronly` on `wronlySys`. -/
theorem read_rejects_wronly_witness :
    sys_read wronlySys 0 2 = (.error .EBADF, wronlySys, []) ∧
    lockAcquires ([] : List Event) 0 = 0 ∧
    ([] : List Event).count (.vfsTransfer 0) = 0 :=
  read_rejects_wronly wronlySys 0 2 0 wronlyFile rfl rfl

/-- Claim C10: closing a descriptor whose object has reference count
greater than 1 leaves the descriptor table unchanged (the slot still
references the same object, now with one fewer reference), and the
descriptor stays usable for subsequent reads and writes. -/
theorem close_shared_reference (s : Sys) (fd oid : Nat) (f : OpenFile)
    (hget : filetable_get s fd = .ok (oid, f)) (hrc : 1 < f.refcount) :
    sys_close s fd
      = (.ok 0, setFile s oid { f with refcount := f.refcount - 1 }) ∧
    (setFile s oid { f with refcount := f.refcount - 1 }).table = s.table ∧
    filetable_get (setFile s oid { f with refcount := f.refcount - 1 }) fd
      = .ok (oid, { f with refcount := f.refcount - 1 }) ∧
    (∀ size, f.accmode ≠ O_WRONLY → f.vfsErr = none →
      ((sys_read (setFile s oid { f with refcount := f.refcount - 1 })
          fd size).1).isOk = true) ∧
    (∀ data, f.vfsErr = none →
      ((sys_write (setFile s oid { f with refcount := f.refcount - 1 })
          fd data).1).isOk = true) := by
  obtain ⟨htab, hfile⟩ := filetable_get_ok hget
  have hget' := filetable_get_setFile hget { f with refcount := f.refcount - 1 }
  refine ⟨?_, rfl, hget', ?_, ?_⟩
  · unfold sys_close
    rw [hget]
    have h1 : ¬ f.refcount = 1 := by omega
    simp only [if_neg h1, openfile_decref, hfile]
    have h2 : ¬ f.refcount ≤ 1 := by omega
    simp [h2]
  · intro size hacc hvfs
    unfold sys_read
    rw [hget']
    simp only [if_neg hacc, hvfs]
    rfl
  · intro data hvfs
    unfold sys_write
    rw [hget']
    simp only [hvfs]
    rfl

/-- Witness for `close_shared_reference`: closing descriptor 0 of
`sharedSys` (refcount 2) keeps the slot, and the descriptor still
reads successfully. -/
theorem close_shared_reference_witness :
    sys_close sharedSys 0
      = (.ok 0, setFile sharedSys 0 { sharedFile with
          refcount := sharedFile.refcount - 1 }) ∧
    ((sys_read (setFile sharedSys 0 { sharedFile with
        refcount := sharedFile.refcount - 1 }) 0 3).1).isOk = true :=
  ⟨(close_shared_reference sharedSys 0 0 sharedFile rfl (by decide)).1,
   (close_shared_reference sharedSys 0 0 sharedFile rfl
      (by decide)).2.2.2.1 3 (by decide) rfl⟩

end FileSys
